import Mathlib

/- Verification development for the credit-metering core of the HyperWhisper
   Cloud worker.  JS numbers are modelled as exact rationals; the rounding
   helpers carry over the Number.EPSILON compensation terms of the source.
   The Number.isFinite guards of the source cannot fire on rationals and are
   therefore dropped with a note at each definition. -/

/-- JS Number.EPSILON, that is 2 to the power of minus 52, used by the
rounding helpers of utils.ts. -/
def jsEpsilon : ℚ := 1 / 4503599627370496

/-- JS Math.round semantics: floor of x + 1/2 (half rounds toward positive
infinity, as in JS). -/
def jsRound (q : ℚ) : ℤ := ⌊q + 1/2⌋

/-- JS Math.max on two numbers. -/
def jsMax (a b : ℚ) : ℚ := if a ≤ b then b else a

/-- JS Math.abs. -/
def jsAbs (q : ℚ) : ℚ := if q < 0 then -q else q

/-- JS String.prototype.startsWith, modelled on the character list. -/
def jsStartsWith (s p : String) : Bool := p.data.isPrefixOf s.data

/-- utils.ts roundToTenth: Math.round((value + EPSILON) * 10) / 10, flushing
results of magnitude below EPSILON to zero.  The isFinite guard is vacuous
on rationals. -/
def roundToTenth (value : ℚ) : ℚ :=
  let rounded : ℚ := (jsRound ((value + jsEpsilon) * 10) : ℚ) / 10
  if jsAbs rounded < jsEpsilon then 0 else rounded

/-- utils.ts roundUpToTenth: Math.ceil((value - EPSILON) * 10) / 10, clamped
to zero for non-positive results.  The isFinite guard is vacuous on
rationals. -/
def roundUpToTenth (value : ℚ) : ℚ :=
  let rounded : ℚ := (⌈(value - jsEpsilon) * 10⌉ : ℚ) / 10
  if rounded ≤ 0 then 0 else rounded

/-- constants/credits.ts CREDITS_PER_MINUTE. -/
def CREDITS_PER_MINUTE : ℚ := 63 / 10

/-- constants/credits.ts TRIAL_CREDIT_ALLOCATION. -/
def TRIAL_CREDIT_ALLOCATION : ℚ := 150

/-- middleware/rate-limiter.ts DAILY_FREE_CREDITS. -/
def DAILY_FREE_CREDITS : ℚ := TRIAL_CREDIT_ALLOCATION

/-- billing/cost-calculator.ts USD_PER_CREDIT: one credit is a tenth of a
cent. -/
def USD_PER_CREDIT : ℚ := 1 / 1000

/-- billing/cost-calculator.ts DEEPGRAM_COST_PER_AUDIO_MINUTE. -/
def DEEPGRAM_COST_PER_AUDIO_MINUTE : ℚ := 43 / 10000

/-- pipeline/credits.ts BYTES_PER_MINUTE_ESTIMATE (1 MiB per minute). -/
def BYTES_PER_MINUTE_ESTIMATE : ℚ := 1024 * 1024

/-- device-credits.ts INITIAL_DEVICE_CREDITS. -/
def INITIAL_DEVICE_CREDITS : ℚ := TRIAL_CREDIT_ALLOCATION

/-- billing/cost-calculator.ts roundUsd: micro-dollar rounding with the
EPSILON compensation term. -/
def roundUsd (value : ℚ) : ℚ :=
  (jsRound ((value + jsEpsilon) * 1000000) : ℚ) / 1000000

/-- billing/cost-calculator.ts computeDeepgramTranscriptionCost: linear in
duration at the Nova-3 batch rate, rounded to micro-dollars. -/
def computeDeepgramTranscriptionCost (durationSeconds : ℚ) : ℚ :=
  roundUsd (durationSeconds / 60 * DEEPGRAM_COST_PER_AUDIO_MINUTE)

/-- billing/cost-calculator.ts usdToCredits.  The middle branch guards a
non-positive exchange rate in the source and is dead for the fixed
USD_PER_CREDIT. -/
def usdToCredits (usd : ℚ) : ℚ :=
  if usd ≤ 0 then 1/10
  else if USD_PER_CREDIT ≤ 0 then jsMax (1/10) (roundUpToTenth (usd * 1000))
  else jsMax (1/10) (roundUpToTenth (usd / USD_PER_CREDIT))

/-- billing/billing.ts calculateCreditsForCost (the polar-billing.ts copy has
the same body). -/
def calculateCreditsForCost (costUsd : ℚ) : ℚ :=
  if costUsd ≤ 0 then 1/10
  else jsMax (1/10) (roundUpToTenth (costUsd * 1000))

/-- pipeline/credits.ts estimateCreditsFromSize. -/
def estimateCreditsFromSize (sizeBytes : ℚ) : ℚ :=
  let estimatedMinutes := sizeBytes / BYTES_PER_MINUTE_ESTIMATE
  let estimatedSeconds := jsMax 10 (estimatedMinutes * 60)
  let estimatedCredits := estimatedSeconds / 60 * CREDITS_PER_MINUTE
  jsMax (1/10) (roundUpToTenth estimatedCredits)

/-- handlers/streaming-handler.ts estimateCreditsFromContentLength; its body
is the same arithmetic as estimateCreditsFromSize, applied to the parsed
Content-Length. -/
def estimateCreditsFromContentLength (contentLength : ℤ) : ℚ :=
  let estimatedMinutes := (contentLength : ℚ) / BYTES_PER_MINUTE_ESTIMATE
  let estimatedSeconds := jsMax 10 (estimatedMinutes * 60)
  let estimatedCredits := estimatedSeconds / 60 * CREDITS_PER_MINUTE
  jsMax (1/10) (roundUpToTenth estimatedCredits)

/-- Spec-side reading of "rounded up to the nearest tenth": the exact ceiling
on the tenths grid, with no epsilon compensation.  Used only to compare the
source functions against the specification text. -/
def ceilToTenth (v : ℚ) : ℚ := (⌈v * 10⌉ : ℚ) / 10

/-- A rational lying on the tenths grid. -/
def IsTenth (q : ℚ) : Prop := ∃ k : ℤ, q = (k : ℚ) / 10

-- ============================================================================
-- Rate limiter (middleware/rate-limiter.ts)
-- ============================================================================

/-- Outcome of the rate-limiter KV read, covering a thrown error, a missing
key, a stored string that parses to NaN, and a parsed finite value. -/
inductive KVRead where
  | err : KVRead
  | missing : KVRead
  | unparsable : KVRead
  | val : ℚ → KVRead
deriving DecidableEq

/-- Milliseconds per UTC day. -/
def dayMs : ℕ := 86400000

/-- rate-limiter.ts getResetTime: start of the next UTC day, in epoch
milliseconds (setUTCDate +1 then setUTCHours 0,0,0,0). -/
def getResetTime (nowMs : ℕ) : ℕ := (nowMs / dayMs + 1) * dayMs

/-- rate-limiter.ts RateLimitStatus (isAnonymous, always true, omitted). -/
structure RateLimitStatus where
  allowed : Bool
  creditsUsed : ℚ
  creditsRemaining : ℚ
  resetsAt : ℕ
deriving DecidableEq

/-- rate-limiter.ts checkRateLimit over a modelled KV read: a thrown read
error denies access (fail closed); otherwise the stored usage is re-rounded,
the request is allowed iff usage plus estimate stays within the daily limit,
and resetsAt is the next UTC midnight. -/
def checkRateLimit (read : KVRead) (estimatedCredits : ℚ) (nowMs : ℕ) :
    RateLimitStatus :=
  match read with
  | .err =>
      { allowed := false
        creditsUsed := DAILY_FREE_CREDITS
        creditsRemaining := 0
        resetsAt := getResetTime nowMs }
  | r =>
      let creditsUsed : ℚ :=
        match r with
        | .val q => roundToTenth q
        | _ => 0
      let creditsAfterRequest := roundToTenth (creditsUsed + estimatedCredits)
      { allowed := decide (creditsAfterRequest ≤ DAILY_FREE_CREDITS)
        creditsUsed := creditsUsed
        creditsRemaining := roundToTenth (jsMax 0 (DAILY_FREE_CREDITS - creditsUsed))
        resetsAt := getResetTime nowMs }

/-- rate-limiter.ts isIPBlocked: a thrown KV read fails open (not blocked);
blocked only when the stored value is exactly the string true. -/
def isIPBlocked (read : Except Unit (Option String)) : Bool :=
  match read with
  | .error _ => false
  | .ok blocked => decide (blocked = some "true")

-- ============================================================================
-- Pipeline responses (pipeline/response.ts)
-- ============================================================================

/-- The fields of the pipeline JSON error responses that the claims refer to:
HTTP status, error tag, and the remediation extras. -/
structure ErrorResponseModel where
  status : ℕ
  error : String
  creditsRemaining : Option ℚ := none
  totalAllocated : Option ℚ := none
  resetsAtMs : Option ℕ := none
deriving DecidableEq

/-- pipeline/response.ts ipBlockedResponse. -/
def ipBlockedResponse : ErrorResponseModel :=
  { status := 403, error := "Access denied" }

/-- pipeline/response.ts deviceCreditsExhaustedResponse. -/
def deviceCreditsExhaustedResponse (balance totalAllocated : ℚ) :
    ErrorResponseModel :=
  { status := 402, error := "Trial credits exhausted"
    creditsRemaining := some balance, totalAllocated := some totalAllocated }

/-- pipeline/response.ts ipRateLimitResponse. -/
def ipRateLimitResponse (resetsAt : ℕ) : ErrorResponseModel :=
  { status := 429, error := "Rate limit exceeded", resetsAtMs := some resetsAt }

/-- pipeline/response.ts PipelineResult, specialised to the failure side the
claims are about. -/
inductive PipelineResultModel where
  | ok : PipelineResultModel
  | fail : ErrorResponseModel → PipelineResultModel
deriving DecidableEq

/-- pipeline/ip-guard.ts checkIPBlocked: a thrown KV read fails open (request
proceeds); the request is rejected only on the exact stored string true. -/
def checkIPBlocked (read : Except Unit (Option String)) : PipelineResultModel :=
  match read with
  | .error _ => .ok
  | .ok blocked =>
      if blocked = some "true" then .fail ipBlockedResponse else .ok

-- ============================================================================
-- Device credits (device-credits.ts)
-- ============================================================================

/-- The stored KV record device_credits:{device_id}. -/
structure DeviceRecord where
  creditsRemaining : ℚ
  totalAllocated : ℚ
  creditsUsed : ℚ
deriving DecidableEq

/-- device-credits.ts initializeDevice: the record stored for a new device. -/
def initialDeviceRecord : DeviceRecord :=
  { creditsRemaining := INITIAL_DEVICE_CREDITS
    totalAllocated := INITIAL_DEVICE_CREDITS
    creditsUsed := 0 }

/-- Outcome of the device-credits KV read. -/
inductive DeviceRead where
  | err : DeviceRead
  | missing : DeviceRead
  | record : DeviceRecord → DeviceRead
deriving DecidableEq

/-- device-credits.ts DeviceCreditsBalance. -/
structure DeviceCreditsBalance where
  creditsRemaining : ℚ
  totalAllocated : ℚ
  creditsUsed : ℚ
  minutesRemaining : ℤ
  isExhausted : Bool
deriving DecidableEq

/-- device-credits.ts getDeviceBalance over a modelled KV read: a missing
record is initialized with the trial allocation, a stored record is
re-rounded, and a read error returns the exhausted sentinel (fail closed). -/
def getDeviceBalance (read : DeviceRead) : DeviceCreditsBalance :=
  match read with
  | .err =>
      { creditsRemaining := 0
        totalAllocated := INITIAL_DEVICE_CREDITS
        creditsUsed := INITIAL_DEVICE_CREDITS
        minutesRemaining := 0
        isExhausted := true }
  | .missing =>
      let initialCredits := roundToTenth INITIAL_DEVICE_CREDITS
      { creditsRemaining := initialCredits
        totalAllocated := INITIAL_DEVICE_CREDITS
        creditsUsed := 0
        minutesRemaining := ⌊initialCredits / CREDITS_PER_MINUTE⌋
        isExhausted := false }
  | .record b =>
      let creditsRemaining := roundToTenth b.creditsRemaining
      let creditsUsed := roundToTenth b.creditsUsed
      { creditsRemaining := creditsRemaining
        totalAllocated := b.totalAllocated
        creditsUsed := creditsUsed
        minutesRemaining := ⌊creditsRemaining / CREDITS_PER_MINUTE⌋
        isExhausted := decide (creditsRemaining ≤ 0) }

/-- device-credits.ts deductDeviceCredits: the balance arithmetic applied to
the current balance before the updated record is stored back.  The new
remaining amount is clamped at zero; the new used amount is not clamped. -/
def deductDeviceCredits (current : DeviceCreditsBalance) (creditsToDeduct : ℚ) :
    DeviceRecord :=
  { creditsRemaining := roundToTenth (jsMax 0 (current.creditsRemaining - creditsToDeduct))
    totalAllocated := current.totalAllocated
    creditsUsed := roundToTenth (current.creditsUsed + creditsToDeduct) }

/-- device-credits.ts hasDeviceSufficientCredits. -/
def hasDeviceSufficientCredits (balance : DeviceCreditsBalance)
    (requiredCredits : ℚ) : Bool :=
  decide (requiredCredits ≤ balance.creditsRemaining)

/-- billing.ts hasSufficientBalance (same body in polar-billing.ts). -/
def hasSufficientBalance (balance estimatedCredits : ℚ) : Bool :=
  decide (estimatedCredits ≤ balance)

-- ============================================================================
-- Pipeline credit validation (pipeline/credits.ts)
-- ============================================================================

/-- pipeline/credits.ts validateTrialCredits over modelled KV reads: the
device-credit gate runs first and denies with the 402 trial-exhausted
response; only then is the IP daily quota consulted, denying with the 429
rate-limit response. -/
def validateTrialCredits (deviceRead : DeviceRead) (rateRead : KVRead)
    (nowMs : ℕ) (estimatedCredits : ℚ) : PipelineResultModel :=
  let deviceBalance := getDeviceBalance deviceRead
  if deviceBalance.isExhausted ∨ deviceBalance.creditsRemaining < estimatedCredits then
    .fail (deviceCreditsExhaustedResponse deviceBalance.creditsRemaining
      deviceBalance.totalAllocated)
  else
    let rateLimit := checkRateLimit rateRead estimatedCredits nowMs
    if rateLimit.allowed then .ok
    else .fail (ipRateLimitResponse rateLimit.resetsAt)

-- ============================================================================
-- Licensed deduction path (billing/billing.ts recordUsage,
-- pipeline/credits.ts deductCredits)
-- ============================================================================

/-- The externally visible effects of the deduction path: the POST of the
deduction amount to the billing API, license-cache KV writes, device-credit
KV writes, and IP-quota increments. -/
inductive DeductEffect where
  | postUsage : String → ℚ → DeductEffect
  | cacheWrite : String → ℚ → Bool → DeductEffect
  | deviceWrite : String → DeviceRecord → DeductEffect
  | ipIncrement : String → ℚ → DeductEffect
deriving DecidableEq

/-- billing/billing.ts recordUsage as its list of effects: the body performs
one fetch POSTing the amount, then parses and logs the returned
credits_remaining.  It contains no KV put, so no cacheWrite effect appears
(the part_003 variant has the same body).  Errors are swallowed. -/
def recordUsage (licenseKey : String) (creditsUsed : ℚ) : List DeductEffect :=
  [.postUsage licenseKey creditsUsed]

/-- pipeline/context.ts AuthenticatedUser, reduced to the discriminant and
identifying field. -/
inductive UserModel where
  | licensed : String → UserModel
  | trial : String → UserModel
deriving DecidableEq

/-- pipeline/credits.ts deductCredits as its list of effects: licensed users
go through recordUsage; trial users write the deducted device record and
increment the IP quota. -/
def deductCredits (user : UserModel) (clientIP : String) (actualCredits : ℚ)
    (deviceCurrent : DeviceCreditsBalance) : List DeductEffect :=
  match user with
  | .licensed licenseKey => recordUsage licenseKey actualCredits
  | .trial deviceId =>
      [.deviceWrite deviceId (deductDeviceCredits deviceCurrent actualCredits),
       .ipIncrement clientIP actualCredits]

-- ============================================================================
-- Retry with exponential backoff (utils.ts retryWithBackoff)
-- ============================================================================

/-- Observable trace of one retryWithBackoff run: final outcome, number of
invocations of the wrapped operation, and the list of waits (ms) performed
between attempts, in order. -/
structure RetryTrace (E T : Type) where
  outcome : Except E T
  attemptsMade : ℕ
  delays : List ℚ

/-- utils.ts retryWithBackoff loop: attempt is the 0-based attempt index and
fuel is maxRetries minus attempt, so fuel = 0 exactly when the source
compares attempt === maxRetries.  The wrapped operation is modelled as the
sequence of outcomes it would produce on successive invocations. -/
def retryGo {E T : Type} (results : ℕ → Except E T)
    (initialDelayMs backoffMultiplier : ℚ) :
    ℕ → ℕ → RetryTrace E T
  | attempt, 0 =>
    match results attempt with
    | .ok t => ⟨.ok t, 1, []⟩
    | .error e => ⟨.error e, 1, []⟩
  | attempt, fuel + 1 =>
    match results attempt with
    | .ok t => ⟨.ok t, 1, []⟩
    | .error _ =>
        let rest := retryGo results initialDelayMs backoffMultiplier (attempt + 1) fuel
        ⟨rest.outcome, rest.attemptsMade + 1,
          initialDelayMs * backoffMultiplier ^ attempt :: rest.delays⟩

/-- utils.ts retryWithBackoff. -/
def retryWithBackoff {E T : Type} (results : ℕ → Except E T) (maxRetries : ℕ)
    (initialDelayMs backoffMultiplier : ℚ) : RetryTrace E T :=
  retryGo results initialDelayMs backoffMultiplier 0 maxRetries

/-- The retry options passed at the Deepgram call site of the legacy handler:
maxRetries 3. -/
def deepgramRetryMaxRetries : ℕ := 3

/-- The retry options passed at the Deepgram call site: initialDelayMs 1000. -/
def deepgramRetryInitialDelayMs : ℚ := 1000

/-- The retry options passed at the Deepgram call site: backoffMultiplier 2. -/
def deepgramRetryBackoffMultiplier : ℚ := 2

-- ============================================================================
-- Deepgram streaming client (api/deepgram-client.ts)
-- ============================================================================

/-- The source tags of StreamingTranscriptionResult. -/
inductive SttSource where
  | deepgram_nova3 : SttSource
  | no_speech : SttSource
deriving DecidableEq

/-- deepgram-client.ts StreamingTranscriptionResult (requestId omitted). -/
structure StreamingTranscriptionResult where
  text : String
  language : Option String
  durationSeconds : ℚ
  costUsd : ℚ
  source : SttSource
deriving DecidableEq

/-- The fields of a successful Deepgram HTTP reply that the normalization
reads: the first-alternative transcript (empty string when absent) and the
metadata duration when present. -/
structure DeepgramReply where
  transcript : String
  detectedLanguage : Option String
  metaDuration : Option ℚ
deriving DecidableEq

/-- deepgram-client.ts transcribeWithDeepgramStream, response-normalization
step: a missing or blank transcript becomes the zero-duration zero-cost
no_speech result; otherwise cost is computed from the reported duration,
defaulting to 0 when metadata carries none.  The URL-path variant
transcribeWithDeepgramUrl is not under src; its normalization is modelled
from the spec (empty-result normalization, same shape). -/
def normalizeDeepgramResponse (r : DeepgramReply) : StreamingTranscriptionResult :=
  if r.transcript = "" ∨ r.transcript.trim = "" then
    { text := "", language := r.detectedLanguage, durationSeconds := 0
      costUsd := 0, source := .no_speech }
  else
    let durationSeconds := r.metaDuration.getD 0
    { text := r.transcript, language := r.detectedLanguage
      durationSeconds := durationSeconds
      costUsd := computeDeepgramTranscriptionCost durationSeconds
      source := .deepgram_nova3 }

-- ============================================================================
-- Streaming transcription handler (handlers/streaming-handler.ts)
-- ============================================================================

/-- streaming-handler.ts LARGE_FILE_THRESHOLD (30 MiB). -/
def LARGE_FILE_THRESHOLD : ℤ := 30 * 1024 * 1024

/-- streaming-handler.ts MAX_AUDIO_SIZE (2 GiB). -/
def MAX_AUDIO_SIZE : ℤ := 2 * 1024 * 1024 * 1024

/-- The per-request inputs and environment reads of
handleStreamingTranscription.  Each network or KV interaction is modelled by
the value the handler would observe from it; contentLengthHeader is none for
an absent header and some none when parseInt yields NaN. -/
structure StreamingInput where
  ipRead : Except Unit (Option String)
  contentType : String
  contentLengthHeader : Option (Option ℤ)
  licenseKey : Option String
  deviceId : Option String
  validationIsValid : Bool
  validationCustomerId : Option String
  meterBalance : ℚ
  deviceRead : DeviceRead
  rateRead : KVRead
  nowMs : ℕ
  apiKeyPresent : Bool
  bodyPresent : Bool
  providerReply : Except Unit DeepgramReply

/-- Externally visible actions of one handler run, in program order: R2
staging, presigned-URL minting, the two provider transports, R2 cleanup, and
the three background billing actions. -/
inductive HandlerEvent where
  | r2Upload : HandlerEvent
  | presignUrl : HandlerEvent
  | deepgramStreamCall : HandlerEvent
  | deepgramUrlCall : HandlerEvent
  | r2Delete : HandlerEvent
  | deductDevice : String → ℚ → HandlerEvent
  | incrementIp : ℚ → HandlerEvent
  | ingestPolar : String → ℚ → HandlerEvent
deriving DecidableEq

/-- The response fields of the streaming handler that the claims refer to. -/
structure StreamingResponse where
  status : ℕ
  error : Option String
  costUsd : Option ℚ
  costCredits : Option ℚ
  noSpeechDetected : Bool
deriving DecidableEq

/-- A handler run: the HTTP response and the ordered list of events. -/
structure HandlerOutcome where
  response : StreamingResponse
  events : List HandlerEvent
deriving DecidableEq

/-- Shorthand for the error responses of the streaming handler. -/
def errResp (status : ℕ) (error : String) : StreamingResponse :=
  { status := status, error := some error, costUsd := none, costCredits := none
    noSpeechDetected := false }

/-- Which billing flags survive STEP 7 of the handler: isLicensed with the
resolved customer id, isTrial with the device id, or neither. -/
inductive BillingTarget where
  | licensedT : String → BillingTarget
  | trialT : String → BillingTarget
  | noneT : BillingTarget
deriving DecidableEq

/-- streaming-handler.ts STEPs 8 through 12: API-key and body checks, the
size-based transport selection (R2 staging plus URL transcription above the
threshold, direct streaming below), no-speech short-circuit, actual-cost
conversion and the background deduction events.  R2 upload and presigning
are modelled as succeeding; a provider failure surfaces as the 500 catch-all
response after the staged object cleanup. -/
def streamingAfterGate (input : StreamingInput) (contentLength : ℤ)
    (target : BillingTarget) : HandlerOutcome :=
  if !input.apiKeyPresent then ⟨errResp 500 "Server misconfigured", []⟩
  else if !input.bodyPresent then ⟨errResp 400 "Empty body", []⟩
  else
    let isLarge : Bool := decide (LARGE_FILE_THRESHOLD ≤ contentLength)
    let transportEvents : List HandlerEvent :=
      if isLarge then [.r2Upload, .presignUrl, .deepgramUrlCall]
      else [.deepgramStreamCall]
    match input.providerReply with
    | .error _ =>
        ⟨errResp 500 "Transcription failed",
          transportEvents ++ (if isLarge then [.r2Delete] else [])⟩
    | .ok reply =>
        let events := transportEvents ++ (if isLarge then [.r2Delete] else [])
        let t := normalizeDeepgramResponse reply
        if t.source = .no_speech then
          ⟨{ status := 200, error := none, costUsd := some 0
             costCredits := some 0, noSpeechDetected := true }, events⟩
        else
          let actualCredits := roundToTenth (calculateCreditsForCost t.costUsd)
          let billingEvents : List HandlerEvent :=
            match target with
            | .licensedT customerId => [.ingestPolar customerId actualCredits]
            | .trialT deviceId =>
                [.deductDevice deviceId actualCredits, .incrementIp actualCredits]
            | .noneT => []
          ⟨{ status := 200, error := none, costUsd := some t.costUsd
             costCredits := some actualCredits, noSpeechDetected := false },
           events ++ billingEvents⟩

/-- streaming-handler.ts handleStreamingTranscription, STEPs 1 through 7: IP
block check, Content-Type and Content-Length validation, identifier check,
size-based credit estimation, then the licensed balance gate or the trial
dual gate (device credits, then IP daily quota), each denying before any
transport work; the surviving billing target is handed to the shared
post-gate phase. -/
def handleStreamingTranscription (input : StreamingInput) : HandlerOutcome :=
  if isIPBlocked input.ipRead then ⟨errResp 403 "Access denied", []⟩
  else if !(jsStartsWith input.contentType "audio/") then
    ⟨errResp 400 "Invalid Content-Type", []⟩
  else
    match input.contentLengthHeader with
    | none => ⟨errResp 400 "Missing Content-Length", []⟩
    | some none => ⟨errResp 400 "Invalid Content-Length", []⟩
    | some (some contentLength) =>
      if contentLength ≤ 0 then ⟨errResp 400 "Invalid Content-Length", []⟩
      else if MAX_AUDIO_SIZE < contentLength then ⟨errResp 413 "File too large", []⟩
      else if input.licenseKey = none ∧ input.deviceId = none then
        ⟨errResp 401 "Identifier required", []⟩
      else
        let estimatedCredits := estimateCreditsFromContentLength contentLength
        match input.licenseKey, input.deviceId with
        | some _, _ =>
          match input.validationIsValid, input.validationCustomerId with
          | true, some customerId =>
            let balanceCredits := roundToTenth input.meterBalance
            if hasSufficientBalance balanceCredits estimatedCredits then
              streamingAfterGate input contentLength (.licensedT customerId)
            else ⟨errResp 402 "Insufficient credits", []⟩
          | _, _ => ⟨errResp 401 "Invalid license", []⟩
        | none, some deviceId =>
          let deviceBalance := getDeviceBalance input.deviceRead
          if hasDeviceSufficientCredits deviceBalance estimatedCredits then
            let rateLimitStatus := checkRateLimit input.rateRead estimatedCredits input.nowMs
            if rateLimitStatus.allowed then
              streamingAfterGate input contentLength (.trialT deviceId)
            else ⟨errResp 429 "Rate limit exceeded", []⟩
          else ⟨errResp 402 "Insufficient credits", []⟩
        | none, none => streamingAfterGate input contentLength .noneT

/-- The Content-Length the handler parses from the request, defaulting to 0
when the header is absent or unparsable (in those cases the handler returns
400 before the value is used).  Statement-side shorthand for the claims. -/
def requestContentLength (input : StreamingInput) : ℤ :=
  (input.contentLengthHeader.getD none).getD 0

/-- The credit estimate of a request, statement-side shorthand. -/
def estimateOf (input : StreamingInput) : ℚ :=
  estimateCreditsFromContentLength (requestContentLength input)

/-- A concrete trial request that passes every gate and whose provider reply
carries a blank transcript.  One MiB body, fresh device, fresh IP quota. -/
def passingNoSpeechInput : StreamingInput :=
  { ipRead := .ok none
    contentType := "audio/mp4"
    contentLengthHeader := some (some 1048576)
    licenseKey := none
    deviceId := some "device-1"
    validationIsValid := false
    validationCustomerId := none
    meterBalance := 0
    deviceRead := .missing
    rateRead := .missing
    nowMs := 0
    apiKeyPresent := true
    bodyPresent := true
    providerReply := .ok { transcript := "", detectedLanguage := none, metaDuration := none } }

/-- The same request against a device whose stored credits are exhausted. -/
def deniedTrialInput : StreamingInput :=
  { passingNoSpeechInput with
      deviceRead := .record { creditsRemaining := 0, totalAllocated := 150, creditsUsed := 150 } }

/-- The transport and cleanup events of STEP 9 for a given Content-Length:
R2 staging, presigned URL and URL transcription plus cleanup above the
threshold, direct streaming below it. -/
def streamingTransportTrace (contentLength : ℤ) : List HandlerEvent :=
  (if decide (LARGE_FILE_THRESHOLD ≤ contentLength) then
      [.r2Upload, .presignUrl, .deepgramUrlCall]
    else [.deepgramStreamCall]) ++
  (if decide (LARGE_FILE_THRESHOLD ≤ contentLength) then [.r2Delete] else [])

/-- The STEP 10 no-speech response of the streaming handler. -/
def noSpeechResponse : StreamingResponse :=
  { status := 200, error := none, costUsd := some 0, costCredits := some 0
    noSpeechDetected := true }

/-- A sample wrapped operation for the retry witness: fails twice, then
succeeds with 42. -/
def retryResultsSample : ℕ → Except Unit ℕ :=
  fun n => if n < 2 then .error () else .ok 42

-- ============================================================================
-- Rounding lemmas
-- ============================================================================

lemma jsMax_eq_max (a b : ℚ) : jsMax a b = max a b := by
  unfold jsMax
  split
  · exact (max_eq_right (by assumption)).symm
  · exact (max_eq_left (le_of_lt (lt_of_not_le (by assumption)))).symm

lemma jsAbs_eq_abs (q : ℚ) : jsAbs q = |q| := by
  unfold jsAbs
  split
  · exact (abs_of_neg (by assumption)).symm
  · exact (abs_of_nonneg (le_of_not_lt (by assumption))).symm

lemma roundUpToTenth_eq_max (v : ℚ) :
    roundUpToTenth v = max 0 ((⌈(v - jsEpsilon) * 10⌉ : ℚ) / 10) := by
  unfold roundUpToTenth
  dsimp only
  split
  · exact (max_eq_left (by assumption)).symm
  · exact (max_eq_right (le_of_lt (lt_of_not_le (by assumption)))).symm

lemma roundUpToTenth_mono {a b : ℚ} (h : a ≤ b) :
    roundUpToTenth a ≤ roundUpToTenth b := by
  rw [roundUpToTenth_eq_max, roundUpToTenth_eq_max]
  refine max_le_max le_rfl ?_
  have hc : (0:ℚ) < 10 := by norm_num
  refine (div_le_div_iff_of_pos_right hc).mpr ?_
  exact_mod_cast Int.ceil_le_ceil (by linarith)

lemma roundToTenth_nonneg {v : ℚ} (h : 0 ≤ v) : 0 ≤ roundToTenth v := by
  unfold roundToTenth
  have hfloor : (0:ℤ) ≤ jsRound ((v + jsEpsilon) * 10) := by
    unfold jsRound
    refine Int.le_floor.mpr ?_
    push_cast
    unfold jsEpsilon
    nlinarith
  dsimp only
  split
  · exact le_rfl
  · positivity

lemma roundToTenth_isTenth (v : ℚ) : IsTenth (roundToTenth v) := by
  unfold roundToTenth
  dsimp only
  split
  · exact ⟨0, by norm_num⟩
  · exact ⟨jsRound ((v + jsEpsilon) * 10), rfl⟩

lemma isTenth_add {a b : ℚ} (ha : IsTenth a) (hb : IsTenth b) :
    IsTenth (a + b) := by
  obtain ⟨k, hk⟩ := ha
  obtain ⟨m, hm⟩ := hb
  exact ⟨k + m, by rw [hk, hm]; push_cast; ring⟩

lemma isTenth_sub {a b : ℚ} (ha : IsTenth a) (hb : IsTenth b) :
    IsTenth (a - b) := by
  obtain ⟨k, hk⟩ := ha
  obtain ⟨m, hm⟩ := hb
  exact ⟨k - m, by rw [hk, hm]; push_cast; ring⟩

/-- roundToTenth is the identity on the tenths grid. -/
lemma roundToTenth_tenth {q : ℚ} (h : IsTenth q) : roundToTenth q = q := by
  obtain ⟨k, hk⟩ := h
  subst hk
  unfold roundToTenth jsRound
  have hfl : ⌊((k : ℚ) / 10 + jsEpsilon) * 10 + 1/2⌋ = k := by
    have : ((k : ℚ) / 10 + jsEpsilon) * 10 + 1/2 = (k : ℚ) + (jsEpsilon * 10 + 1/2) := by
      ring
    rw [this, add_comm, Int.floor_add_int]
    have : ⌊jsEpsilon * 10 + (1:ℚ)/2⌋ = 0 := by
      refine Int.floor_eq_zero_iff.mpr ?_
      constructor
      · unfold jsEpsilon; norm_num
      · unfold jsEpsilon; norm_num
    omega
  rw [hfl]
  dsimp only
  split
  · rename_i habs
    rw [jsAbs_eq_abs] at habs
    by_contra hne
    have hk0 : k ≠ 0 := by
      intro h0
      subst h0
      exact hne (by norm_num)
    have h1 : (1:ℚ)/10 ≤ |(k:ℚ)/10| := by
      rw [abs_div, abs_of_nonneg (by norm_num : (0:ℚ) ≤ 10)]
      have : (1:ℚ) ≤ |(k:ℚ)| := by
        have := Int.one_le_abs hk0
        calc (1:ℚ) ≤ (|k| : ℤ) := by exact_mod_cast this
        _ = |(k:ℚ)| := by push_cast; rfl
      linarith
    unfold jsEpsilon at habs
    linarith
  · rfl

/-- A perturbation smaller than the grid step does not change the ceiling of
a value on the hundredths grid. -/
lemma ceil_hundredth_sub (k : ℤ) {d : ℚ} (h0 : 0 < d) (h1 : d < 1/100) :
    ⌈(k : ℚ) / 100 - d⌉ = ⌈(k : ℚ) / 100⌉ := by
  have hceil := Int.ceil_lt_add_one ((k : ℚ) / 100)
  have hle := Int.le_ceil ((k : ℚ) / 100)
  have hint : 100 * (⌈(k : ℚ) / 100⌉ - 1) < k := by
    have h2 : ((100 * (⌈(k : ℚ) / 100⌉ - 1) : ℤ) : ℚ) < (k : ℚ) := by
      push_cast
      linarith
    exact_mod_cast h2
  have hint2 : 100 * (⌈(k : ℚ) / 100⌉ - 1) + 1 ≤ k := hint
  have h3 : ((100 * (⌈(k : ℚ) / 100⌉ - 1) + 1 : ℤ) : ℚ) ≤ (k : ℚ) := by
    exact_mod_cast hint2
  rw [Int.ceil_eq_iff]
  constructor
  · push_cast at h3
    linarith
  · linarith

/-- roundUpToTenth is the non-negative clamp on the tenths grid. -/
lemma roundUpToTenth_tenth {q : ℚ} (h : IsTenth q) :
    roundUpToTenth q = max 0 q := by
  obtain ⟨k, rfl⟩ := h
  unfold roundUpToTenth
  dsimp only
  have hceil : ⌈((k : ℚ) / 10 - jsEpsilon) * 10⌉ = k := by
    have harg : ((k : ℚ) / 10 - jsEpsilon) * 10 = (k : ℚ) - 10 * jsEpsilon := by ring
    rw [harg, Int.ceil_eq_iff]
    constructor
    · unfold jsEpsilon
      linarith
    · unfold jsEpsilon
      linarith
  rw [hceil]
  split
  · exact (max_eq_left (by assumption)).symm
  · exact (max_eq_right (le_of_lt (lt_of_not_le (by assumption)))).symm

/-- On the thousandths grid (credit amounts arising from micro-dollar costs)
the epsilon-compensated round-up agrees with the exact round-up to the next
tenth. -/
lemma roundUpToTenth_thousandth (k : ℤ) (hk : 0 < k) :
    roundUpToTenth ((k : ℚ) / 1000) = ceilToTenth ((k : ℚ) / 1000) := by
  have hceil : ⌈((k : ℚ) / 1000 - jsEpsilon) * 10⌉ = ⌈(k : ℚ) / 100⌉ := by
    have harg : ((k : ℚ) / 1000 - jsEpsilon) * 10 = (k : ℚ) / 100 - 10 * jsEpsilon := by
      ring
    rw [harg]
    exact ceil_hundredth_sub k (by unfold jsEpsilon; norm_num)
      (by unfold jsEpsilon; norm_num)
  have hpos : 0 < ⌈(k : ℚ) / 100⌉ :=
    Int.ceil_pos.mpr (div_pos (by exact_mod_cast hk) (by norm_num))
  unfold roundUpToTenth ceilToTenth
  dsimp only
  rw [hceil]
  have harg2 : (k : ℚ) / 1000 * 10 = (k : ℚ) / 100 := by ring
  rw [harg2]
  have hposq : (0 : ℚ) < (⌈(k : ℚ) / 100⌉ : ℚ) / 10 := by
    have hq : (0 : ℚ) < (⌈(k : ℚ) / 100⌉ : ℚ) := by exact_mod_cast hpos
    positivity
  rw [if_neg (not_le.mpr hposq)]

/-- usdToCredits on the micro-dollar grid is the exact round-up with the
tenth-of-a-credit floor. -/
lemma usdToCredits_micro (k : ℤ) (hk : 0 < k) :
    usdToCredits ((k : ℚ) / 1000000) =
      max (1/10) (ceilToTenth (((k : ℚ) / 1000000) / USD_PER_CREDIT)) := by
  have hpos : (0 : ℚ) < (k : ℚ) / 1000000 := div_pos (by exact_mod_cast hk) (by norm_num)
  unfold usdToCredits
  rw [if_neg (not_le.mpr hpos), if_neg (by unfold USD_PER_CREDIT; norm_num)]
  have hdiv : (k : ℚ) / 1000000 / USD_PER_CREDIT = (k : ℚ) / 1000 := by
    unfold USD_PER_CREDIT
    ring
  rw [hdiv, roundUpToTenth_thousandth k hk, jsMax_eq_max]

/-- calculateCreditsForCost and usdToCredits agree everywhere. -/
lemma calculateCreditsForCost_eq_usdToCredits (usd : ℚ) :
    calculateCreditsForCost usd = usdToCredits usd := by
  unfold calculateCreditsForCost usdToCredits
  rcases le_or_lt usd 0 with h | h
  · rw [if_pos h, if_pos h]
  · rw [if_neg (not_le.mpr h), if_neg (not_le.mpr h),
      if_neg (by unfold USD_PER_CREDIT; norm_num)]
    have hdiv : usd / USD_PER_CREDIT = usd * 1000 := by
      unfold USD_PER_CREDIT
      ring
    rw [hdiv]

lemma roundUpToTenth_tenSeconds : roundUpToTenth (21/20) = 11/10 := by
  unfold roundUpToTenth
  dsimp only
  have hceil : ⌈((21:ℚ)/20 - jsEpsilon) * 10⌉ = 11 := by
    rw [Int.ceil_eq_iff]
    constructor
    · unfold jsEpsilon
      push_cast
      norm_num
    · unfold jsEpsilon
      push_cast
      norm_num
  rw [hceil]
  norm_num

lemma estimateCreditsFromSize_zero : estimateCreditsFromSize 0 = 11/10 := by
  unfold estimateCreditsFromSize
  dsimp only
  have h1 : (0 : ℚ) / BYTES_PER_MINUTE_ESTIMATE * 60 = 0 := by
    unfold BYTES_PER_MINUTE_ESTIMATE
    norm_num
  rw [h1]
  have h2 : jsMax 10 0 = 10 := by
    unfold jsMax
    norm_num
  rw [h2]
  have h3 : (10 : ℚ) / 60 * CREDITS_PER_MINUTE = 21/20 := by
    unfold CREDITS_PER_MINUTE
    norm_num
  rw [h3, roundUpToTenth_tenSeconds]
  unfold jsMax
  norm_num

lemma estimateCreditsFromSize_mono {a b : ℚ} (h : a ≤ b) :
    estimateCreditsFromSize a ≤ estimateCreditsFromSize b := by
  unfold estimateCreditsFromSize
  dsimp only
  rw [jsMax_eq_max, jsMax_eq_max, jsMax_eq_max, jsMax_eq_max]
  refine max_le_max le_rfl (roundUpToTenth_mono ?_)
  have hB : (0 : ℚ) < BYTES_PER_MINUTE_ESTIMATE := by
    unfold BYTES_PER_MINUTE_ESTIMATE
    norm_num
  have hdiv : a / BYTES_PER_MINUTE_ESTIMATE * 60 ≤ b / BYTES_PER_MINUTE_ESTIMATE * 60 :=
    mul_le_mul_of_nonneg_right ((div_le_div_iff_of_pos_right hB).mpr h) (by norm_num)
  have hmax := max_le_max (le_refl (10 : ℚ)) hdiv
  refine mul_le_mul_of_nonneg_right ?_ (by unfold CREDITS_PER_MINUTE; norm_num)
  exact (div_le_div_iff_of_pos_right (by norm_num)).mpr hmax

/-- C8: the size-based credit estimate is monotone in the size, and its value
at size zero is the ten-second floor (the credits for 10 seconds of audio
rounded up to a tenth), which is strictly positive. -/
theorem estimate_monotone_c8 :
    (∀ s1 s2 : ℚ, 0 ≤ s1 → s1 < s2 →
        estimateCreditsFromSize s1 ≤ estimateCreditsFromSize s2)
    ∧ estimateCreditsFromSize 0 = roundUpToTenth (10 / 60 * CREDITS_PER_MINUTE)
    ∧ 0 < estimateCreditsFromSize 0 := by
  refine ⟨fun s1 s2 _ h12 => estimateCreditsFromSize_mono (le_of_lt h12), ?_, ?_⟩
  · rw [estimateCreditsFromSize_zero]
    have h3 : (10 : ℚ) / 60 * CREDITS_PER_MINUTE = 21/20 := by
      unfold CREDITS_PER_MINUTE
      norm_num
    rw [h3, roundUpToTenth_tenSeconds]
  · rw [estimateCreditsFromSize_zero]
    norm_num

/-- Witness for estimate_monotone_c8 at sizes 0 and one MiB. -/
theorem estimate_monotone_c8_witness :
    estimateCreditsFromSize 0 ≤ estimateCreditsFromSize 1048576 :=
  estimate_monotone_c8.1 0 1048576 le_rfl (by norm_num)

-- ============================================================================
-- Streaming handler lemmas
-- ============================================================================

lemma streamingAfterGate_noApiKey (input : StreamingInput) (cl : ℤ)
    (target : BillingTarget) (h : input.apiKeyPresent = false) :
    streamingAfterGate input cl target = ⟨errResp 500 "Server misconfigured", []⟩ := by
  unfold streamingAfterGate
  simp [h]

lemma streamingAfterGate_noBody (input : StreamingInput) (cl : ℤ)
    (target : BillingTarget) (h1 : input.apiKeyPresent = true)
    (h2 : input.bodyPresent = false) :
    streamingAfterGate input cl target = ⟨errResp 400 "Empty body", []⟩ := by
  unfold streamingAfterGate
  simp [h1, h2]

lemma streamingAfterGate_noSpeech (input : StreamingInput) (cl : ℤ)
    (target : BillingTarget) (reply : DeepgramReply)
    (hapi : input.apiKeyPresent = true) (hbody : input.bodyPresent = true)
    (hreply : input.providerReply = .ok reply)
    (hempty : reply.transcript = "" ∨ reply.transcript.trim = "") :
    streamingAfterGate input cl target =
      ⟨noSpeechResponse, streamingTransportTrace cl⟩ := by
  unfold streamingAfterGate
  rw [hapi, hbody, hreply]
  dsimp only
  have hnorm : normalizeDeepgramResponse reply =
      { text := "", language := reply.detectedLanguage, durationSeconds := 0
        costUsd := 0, source := .no_speech } := by
    unfold normalizeDeepgramResponse
    rw [if_pos hempty]
  rw [hnorm]
  simp [noSpeechResponse, streamingTransportTrace]

lemma streamingTransportTrace_no_billing (cl : ℤ) :
    (∀ d a, HandlerEvent.deductDevice d a ∉ streamingTransportTrace cl)
    ∧ (∀ a, HandlerEvent.incrementIp a ∉ streamingTransportTrace cl)
    ∧ (∀ c a, HandlerEvent.ingestPolar c a ∉ streamingTransportTrace cl) := by
  unfold streamingTransportTrace
  rcases h : decide (LARGE_FILE_THRESHOLD ≤ cl) with _ | _ <;>
    refine ⟨fun d a => ?_, fun a => ?_, fun c a => ?_⟩ <;> simp

/-- Every handler run either stops before STEP 8 with an error response and
no events, or is the shared post-gate phase for the surviving billing
target. -/
lemma handler_early_or_afterGate (input : StreamingInput) :
    (∃ r : StreamingResponse, handleStreamingTranscription input = ⟨r, []⟩ ∧ r.status ≠ 200)
    ∨ (∃ target, handleStreamingTranscription input =
        streamingAfterGate input (requestContentLength input) target) := by
  by_cases h1 : isIPBlocked input.ipRead
  · refine Or.inl ⟨errResp 403 "Access denied", ?_, by simp [errResp]⟩
    unfold handleStreamingTranscription
    simp [h1]
  by_cases h2 : jsStartsWith input.contentType "audio/"
  case neg =>
    refine Or.inl ⟨errResp 400 "Invalid Content-Type", ?_, by simp [errResp]⟩
    unfold handleStreamingTranscription
    simp [h1, h2]
  rcases hcl : input.contentLengthHeader with _ | (_ | cl)
  · refine Or.inl ⟨errResp 400 "Missing Content-Length", ?_, by simp [errResp]⟩
    unfold handleStreamingTranscription
    simp [h1, h2, hcl]
  · refine Or.inl ⟨errResp 400 "Invalid Content-Length", ?_, by simp [errResp]⟩
    unfold handleStreamingTranscription
    simp [h1, h2, hcl]
  by_cases h3 : cl ≤ 0
  · refine Or.inl ⟨errResp 400 "Invalid Content-Length", ?_, by simp [errResp]⟩
    unfold handleStreamingTranscription
    simp [h1, h2, hcl, h3]
  by_cases h4 : MAX_AUDIO_SIZE < cl
  · refine Or.inl ⟨errResp 413 "File too large", ?_, by simp [errResp]⟩
    unfold handleStreamingTranscription
    simp [h1, h2, hcl, h3, h4]
  by_cases h5 : input.licenseKey = none ∧ input.deviceId = none
  · refine Or.inl ⟨errResp 401 "Identifier required", ?_, by simp [errResp]⟩
    unfold handleStreamingTranscription
    simp [h1, h2, hcl, h3, h4, h5]
  have hreq : requestContentLength input = cl := by
    unfold requestContentLength
    rw [hcl]
    rfl
  rcases hk : input.licenseKey with _ | k
  · rcases hd : input.deviceId with _ | d
    · exact absurd ⟨hk, hd⟩ h5
    · by_cases h6 : hasDeviceSufficientCredits (getDeviceBalance input.deviceRead)
        (estimateCreditsFromContentLength cl)
      case neg =>
        refine Or.inl ⟨errResp 402 "Insufficient credits", ?_, by simp [errResp]⟩
        unfold handleStreamingTranscription
        simp [h1, h2, hcl, h3, h4, h5, hk, hd, h6]
      by_cases h7 : (checkRateLimit input.rateRead
          (estimateCreditsFromContentLength cl) input.nowMs).allowed
      · refine Or.inr ⟨.trialT d, ?_⟩
        rw [hreq]
        unfold handleStreamingTranscription
        simp [h1, h2, hcl, h3, h4, h5, hk, hd, h6, h7]
      · refine Or.inl ⟨errResp 429 "Rate limit exceeded", ?_, by simp [errResp]⟩
        unfold handleStreamingTranscription
        simp [h1, h2, hcl, h3, h4, h5, hk, hd, h6, h7]
  · cases hv : input.validationIsValid with
    | false =>
      refine Or.inl ⟨errResp 401 "Invalid license", ?_, by simp [errResp]⟩
      unfold handleStreamingTranscription
      simp [h1, h2, hcl, h3, h4, h5, hk, hv]
    | true =>
      rcases hc : input.validationCustomerId with _ | c
      · refine Or.inl ⟨errResp 401 "Invalid license", ?_, by simp [errResp]⟩
        unfold handleStreamingTranscription
        simp [h1, h2, hcl, h3, h4, h5, hk, hv, hc]
      · by_cases h8 : hasSufficientBalance (roundToTenth input.meterBalance)
          (estimateCreditsFromContentLength cl)
        · refine Or.inr ⟨.licensedT c, ?_⟩
          rw [hreq]
          unfold handleStreamingTranscription
          simp [h1, h2, hcl, h3, h4, h5, hk, hv, hc, h8]
        · refine Or.inl ⟨errResp 402 "Insufficient credits", ?_, by simp [errResp]⟩
          unfold handleStreamingTranscription
          simp [h1, h2, hcl, h3, h4, h5, hk, hv, hc, h8]

lemma estimate_one_mib : estimateCreditsFromContentLength 1048576 = 63/10 := by
  unfold estimateCreditsFromContentLength
  dsimp only
  have h1 : ((1048576 : ℤ) : ℚ) / BYTES_PER_MINUTE_ESTIMATE * 60 = 60 := by
    unfold BYTES_PER_MINUTE_ESTIMATE
    norm_num
  rw [h1]
  have h2 : jsMax 10 60 = 60 := by unfold jsMax; norm_num
  rw [h2]
  have h3 : (60 : ℚ) / 60 * CREDITS_PER_MINUTE = 63/10 := by
    unfold CREDITS_PER_MINUTE
    norm_num
  rw [h3, roundUpToTenth_tenth ⟨63, by norm_num⟩, jsMax_eq_max]
  rw [max_eq_right (by norm_num : (0:ℚ) ≤ 63/10)]
  rw [max_eq_right (by norm_num : (1:ℚ)/10 ≤ 63/10)]

lemma device_missing_ok :
    hasDeviceSufficientCredits (getDeviceBalance .missing) (63/10) = true := by
  unfold hasDeviceSufficientCredits getDeviceBalance
  dsimp only
  rw [show roundToTenth INITIAL_DEVICE_CREDITS = 150 from ?_]
  · simp only [decide_eq_true_eq]
    norm_num
  · unfold INITIAL_DEVICE_CREDITS TRIAL_CREDIT_ALLOCATION
    exact roundToTenth_tenth ⟨1500, by norm_num⟩

lemma rate_missing_ok : (checkRateLimit KVRead.missing (63/10) 0).allowed = true := by
  unfold checkRateLimit
  dsimp only
  rw [show (0:ℚ) + 63/10 = 63/10 from by norm_num]
  rw [roundToTenth_tenth ⟨63, by norm_num⟩]
  simp only [decide_eq_true_eq]
  unfold DAILY_FREE_CREDITS TRIAL_CREDIT_ALLOCATION
  norm_num

/-- The sample no-speech request runs the direct-stream transport and returns
the no-speech response. -/
lemma handler_eval_passing :
    handleStreamingTranscription passingNoSpeechInput =
      ⟨noSpeechResponse, [.deepgramStreamCall]⟩ := by
  have hng := streamingAfterGate_noSpeech passingNoSpeechInput 1048576
      (.trialT "device-1") { transcript := "", detectedLanguage := none, metaDuration := none }
      rfl rfl rfl (Or.inl rfl)
  unfold handleStreamingTranscription
  simp only [passingNoSpeechInput, estimate_one_mib, device_missing_ok, rate_missing_ok]
  norm_num [isIPBlocked, jsStartsWith, MAX_AUDIO_SIZE]
  rw [if_neg (by simp : ¬ (none : Option String) = some "true")]
  rw [if_neg (by simp : ¬ (some "device-1" : Option String) = none)]
  simp only [passingNoSpeechInput] at hng
  rw [hng]
  unfold streamingTransportTrace
  norm_num [LARGE_FILE_THRESHOLD]

/-- C2: whenever the provider reply is normalized as no speech detected and a
provider transport was actually invoked, the handler returns the 200
no-speech response with zero USD and zero credits, and no deduction event
(device write, IP increment, or usage ingestion) is ever emitted. -/
theorem no_speech_zero_billing_c2 (input : StreamingInput) (reply : DeepgramReply)
    (hreply : input.providerReply = .ok reply)
    (hempty : reply.transcript = "" ∨ reply.transcript.trim = "")
    (hcalled : HandlerEvent.deepgramStreamCall ∈ (handleStreamingTranscription input).events
      ∨ HandlerEvent.deepgramUrlCall ∈ (handleStreamingTranscription input).events) :
    (handleStreamingTranscription input).response.status = 200
    ∧ (handleStreamingTranscription input).response.noSpeechDetected = true
    ∧ (handleStreamingTranscription input).response.costUsd = some 0
    ∧ (handleStreamingTranscription input).response.costCredits = some 0
    ∧ (∀ d a, HandlerEvent.deductDevice d a ∉ (handleStreamingTranscription input).events)
    ∧ (∀ a, HandlerEvent.incrementIp a ∉ (handleStreamingTranscription input).events)
    ∧ (∀ c a, HandlerEvent.ingestPolar c a ∉ (handleStreamingTranscription input).events) := by
  rcases handler_early_or_afterGate input with ⟨r, heq, _⟩ | ⟨target, heq⟩
  · rw [heq] at hcalled
    simp at hcalled
  · cases hapi : input.apiKeyPresent with
    | false =>
      rw [heq, streamingAfterGate_noApiKey input _ target hapi] at hcalled
      simp at hcalled
    | true =>
      cases hbody : input.bodyPresent with
      | false =>
        rw [heq, streamingAfterGate_noBody input _ target hapi hbody] at hcalled
        simp at hcalled
      | true =>
        have hng := streamingAfterGate_noSpeech input (requestContentLength input)
          target reply hapi hbody hreply hempty
        rw [heq, hng]
        exact ⟨rfl, rfl, rfl, rfl,
          (streamingTransportTrace_no_billing _).1,
          (streamingTransportTrace_no_billing _).2.1,
          (streamingTransportTrace_no_billing _).2.2⟩

/-- Witness for no_speech_zero_billing_c2 at the sample one-MiB trial
request whose provider reply is blank. -/
theorem no_speech_zero_billing_c2_witness :
    (handleStreamingTranscription passingNoSpeechInput).response.status = 200
    ∧ (handleStreamingTranscription passingNoSpeechInput).response.noSpeechDetected = true :=
  have h := no_speech_zero_billing_c2 passingNoSpeechInput
    { transcript := "", detectedLanguage := none, metaDuration := none }
    rfl (Or.inl rfl)
    (Or.inl (by rw [handler_eval_passing]; exact List.mem_singleton.mpr rfl))
  ⟨h.1, h.2.1⟩

/-- When the gate hypothesis of C3 holds, the handler stops with an error
response and an empty event list. -/
lemma handler_deny (input : StreamingInput)
    (hdeny :
      (input.licenseKey.isSome ∧ roundToTenth input.meterBalance < estimateOf input)
      ∨ (input.licenseKey = none ∧ input.deviceId.isSome ∧
          (getDeviceBalance input.deviceRead).creditsRemaining < estimateOf input)
      ∨ (input.licenseKey = none ∧ input.deviceId.isSome ∧
          (checkRateLimit input.rateRead (estimateOf input) input.nowMs).allowed = false)) :
    ∃ r : StreamingResponse, handleStreamingTranscription input = ⟨r, []⟩ ∧ r.status ≠ 200 := by
  by_cases h1 : isIPBlocked input.ipRead
  · refine ⟨errResp 403 "Access denied", ?_, by simp [errResp]⟩
    unfold handleStreamingTranscription
    simp [h1]
  by_cases h2 : jsStartsWith input.contentType "audio/"
  case neg =>
    refine ⟨errResp 400 "Invalid Content-Type", ?_, by simp [errResp]⟩
    unfold handleStreamingTranscription
    simp [h1, h2]
  rcases hcl : input.contentLengthHeader with _ | (_ | cl)
  · refine ⟨errResp 400 "Missing Content-Length", ?_, by simp [errResp]⟩
    unfold handleStreamingTranscription
    simp [h1, h2, hcl]
  · refine ⟨errResp 400 "Invalid Content-Length", ?_, by simp [errResp]⟩
    unfold handleStreamingTranscription
    simp [h1, h2, hcl]
  by_cases h3 : cl ≤ 0
  · refine ⟨errResp 400 "Invalid Content-Length", ?_, by simp [errResp]⟩
    unfold handleStreamingTranscription
    simp [h1, h2, hcl, h3]
  by_cases h4 : MAX_AUDIO_SIZE < cl
  · refine ⟨errResp 413 "File too large", ?_, by simp [errResp]⟩
    unfold handleStreamingTranscription
    simp [h1, h2, hcl, h3, h4]
  by_cases h5 : input.licenseKey = none ∧ input.deviceId = none
  · refine ⟨errResp 401 "Identifier required", ?_, by simp [errResp]⟩
    unfold handleStreamingTranscription
    simp [h1, h2, hcl, h3, h4, h5]
  have hreq : estimateOf input = estimateCreditsFromContentLength cl := by
    unfold estimateOf requestContentLength
    rw [hcl]
    rfl
  rcases hk : input.licenseKey with _ | k
  · rcases hd : input.deviceId with _ | d
    · exact absurd ⟨hk, hd⟩ h5
    · have hdeny2 : (getDeviceBalance input.deviceRead).creditsRemaining <
          estimateCreditsFromContentLength cl
          ∨ (checkRateLimit input.rateRead (estimateCreditsFromContentLength cl)
              input.nowMs).allowed = false := by
        rw [← hreq]
        rcases hdeny with ⟨hsome, _⟩ | ⟨_, _, hlt⟩ | ⟨_, _, hal⟩
        · rw [hk] at hsome
          exact absurd hsome (by simp)
        · exact Or.inl hlt
        · exact Or.inr hal
      by_cases h6 : hasDeviceSufficientCredits (getDeviceBalance input.deviceRead)
        (estimateCreditsFromContentLength cl)
      case neg =>
        refine ⟨errResp 402 "Insufficient credits", ?_, by simp [errResp]⟩
        unfold handleStreamingTranscription
        simp [h1, h2, hcl, h3, h4, h5, hk, hd, h6]
      have h6q : estimateCreditsFromContentLength cl ≤
          (getDeviceBalance input.deviceRead).creditsRemaining := by
        unfold hasDeviceSufficientCredits at h6
        exact of_decide_eq_true h6
      rcases hdeny2 with hlt | hal
      · exact absurd h6q (not_le.mpr hlt)
      · refine ⟨errResp 429 "Rate limit exceeded", ?_, by simp [errResp]⟩
        unfold handleStreamingTranscription
        simp [h1, h2, hcl, h3, h4, h5, hk, hd, h6, hal]
  · have hbal : roundToTenth input.meterBalance < estimateCreditsFromContentLength cl := by
      rw [← hreq]
      rcases hdeny with ⟨_, hlt⟩ | ⟨hnone, _, _⟩ | ⟨hnone, _, _⟩
      · exact hlt
      · rw [hk] at hnone
        exact absurd hnone (by simp)
      · rw [hk] at hnone
        exact absurd hnone (by simp)
    cases hv : input.validationIsValid with
    | false =>
      refine ⟨errResp 401 "Invalid license", ?_, by simp [errResp]⟩
      unfold handleStreamingTranscription
      simp [h1, h2, hcl, h3, h4, h5, hk, hv]
    | true =>
      rcases hc : input.validationCustomerId with _ | c
      · refine ⟨errResp 401 "Invalid license", ?_, by simp [errResp]⟩
        unfold handleStreamingTranscription
        simp [h1, h2, hcl, h3, h4, h5, hk, hv, hc]
      · have h8 : hasSufficientBalance (roundToTenth input.meterBalance)
            (estimateCreditsFromContentLength cl) = false := by
          unfold hasSufficientBalance
          exact decide_eq_false (not_le.mpr hbal)
        refine ⟨errResp 402 "Insufficient credits", ?_, by simp [errResp]⟩
        unfold handleStreamingTranscription
        simp [h1, h2, hcl, h3, h4, h5, hk, hv, hc, h8]

/-- C3: when the licensed balance, the trial device balance, or the trial IP
quota does not cover the size-based estimate, the handler stops with a
non-200 response and no provider transport is ever invoked: no transcription
call of either kind, no R2 upload, and no presigned URL minting. -/
theorem gate_before_spend_c3 (input : StreamingInput)
    (hdeny :
      (input.licenseKey.isSome ∧ roundToTenth input.meterBalance < estimateOf input)
      ∨ (input.licenseKey = none ∧ input.deviceId.isSome ∧
          (getDeviceBalance input.deviceRead).creditsRemaining < estimateOf input)
      ∨ (input.licenseKey = none ∧ input.deviceId.isSome ∧
          (checkRateLimit input.rateRead (estimateOf input) input.nowMs).allowed = false)) :
    (handleStreamingTranscription input).response.status ≠ 200
    ∧ HandlerEvent.deepgramStreamCall ∉ (handleStreamingTranscription input).events
    ∧ HandlerEvent.deepgramUrlCall ∉ (handleStreamingTranscription input).events
    ∧ HandlerEvent.r2Upload ∉ (handleStreamingTranscription input).events
    ∧ HandlerEvent.presignUrl ∉ (handleStreamingTranscription input).events := by
  obtain ⟨r, heq, hs⟩ := handler_deny input hdeny
  rw [heq]
  exact ⟨hs, by simp, by simp, by simp, by simp⟩

/-- Witness for gate_before_spend_c3 at the sample trial request whose
stored device record is exhausted. -/
theorem gate_before_spend_c3_witness :
    (handleStreamingTranscription deniedTrialInput).response.status ≠ 200
    ∧ HandlerEvent.deepgramStreamCall ∉ (handleStreamingTranscription deniedTrialInput).events :=
  have hlt : (getDeviceBalance deniedTrialInput.deviceRead).creditsRemaining <
      estimateOf deniedTrialInput := by
    have hz : (getDeviceBalance deniedTrialInput.deviceRead).creditsRemaining = 0 := by
      show (getDeviceBalance (.record
        { creditsRemaining := 0, totalAllocated := 150, creditsUsed := 150 })).creditsRemaining = 0
      unfold getDeviceBalance
      exact roundToTenth_tenth ⟨0, by norm_num⟩
    have hest : estimateOf deniedTrialInput = 63/10 := by
      show estimateCreditsFromContentLength (requestContentLength deniedTrialInput) = 63/10
      rw [show requestContentLength deniedTrialInput = 1048576 from rfl]
      exact estimate_one_mib
    rw [hz, hest]
    norm_num
  have h := gate_before_spend_c3 deniedTrialInput
    (Or.inr (Or.inl ⟨rfl, rfl, hlt⟩))
  ⟨h.1, h.2.1⟩

/-- C1: on the micro-dollar grid that actual costs live on (every roundUsd
output is such a value), usdToCredits is the exact division by the exchange
rate rounded up to the next tenth with a floor of a tenth of a credit;
calculateCreditsForCost computes the same function; a cost of exactly zero
yields the 0.1 floor from these conversion functions (the legacy estimate
path), while a no-speech outcome is billed exactly zero credits by the
handler. -/
theorem usd_to_credits_c1 :
    (∀ k : ℤ, 0 < k →
        usdToCredits ((k : ℚ) / 1000000) =
          max (1/10) (ceilToTenth (((k : ℚ) / 1000000) / USD_PER_CREDIT)))
    ∧ (∀ usd : ℚ, calculateCreditsForCost usd = usdToCredits usd)
    ∧ usdToCredits 0 = 1/10
    ∧ (∀ v : ℚ, ∃ m : ℤ, roundUsd v = (m : ℚ) / 1000000)
    ∧ (∀ (input : StreamingInput) (reply : DeepgramReply),
        input.providerReply = .ok reply →
        reply.transcript = "" ∨ reply.transcript.trim = "" →
        (HandlerEvent.deepgramStreamCall ∈ (handleStreamingTranscription input).events
          ∨ HandlerEvent.deepgramUrlCall ∈ (handleStreamingTranscription input).events) →
        (handleStreamingTranscription input).response.costCredits = some 0
        ∧ (handleStreamingTranscription input).response.costUsd = some 0) := by
  refine ⟨usdToCredits_micro, calculateCreditsForCost_eq_usdToCredits, ?_, ?_, ?_⟩
  · unfold usdToCredits
    rw [if_pos le_rfl]
  · intro v
    exact ⟨jsRound ((v + jsEpsilon) * 1000000), rfl⟩
  · intro input reply hreply hempty hcalled
    rcases handler_early_or_afterGate input with ⟨r, heq, _⟩ | ⟨target, heq⟩
    · rw [heq] at hcalled
      simp at hcalled
    · cases hapi : input.apiKeyPresent with
      | false =>
        rw [heq, streamingAfterGate_noApiKey input _ target hapi] at hcalled
        simp at hcalled
      | true =>
        cases hbody : input.bodyPresent with
        | false =>
          rw [heq, streamingAfterGate_noBody input _ target hapi hbody] at hcalled
          simp at hcalled
        | true =>
          rw [heq, streamingAfterGate_noSpeech input (requestContentLength input)
            target reply hapi hbody hreply hempty]
          exact ⟨rfl, rfl⟩

/-- Witness for usd_to_credits_c1 at the micro-dollar cost of one minute of
audio (4300 micro-dollars) and at the sample no-speech request. -/
theorem usd_to_credits_c1_witness :
    usdToCredits (((4300 : ℤ) : ℚ) / 1000000) =
      max (1/10) (ceilToTenth ((((4300 : ℤ) : ℚ) / 1000000) / USD_PER_CREDIT))
    ∧ (handleStreamingTranscription passingNoSpeechInput).response.costCredits = some 0 :=
  ⟨usd_to_credits_c1.1 4300 (by norm_num),
   (usd_to_credits_c1.2.2.2.2 passingNoSpeechInput
     { transcript := "", detectedLanguage := none, metaDuration := none }
     rfl (Or.inl rfl)
     (Or.inl (by rw [handler_eval_passing]; exact List.mem_singleton.mpr rfl))).1⟩

-- ============================================================================
-- Rate limiter and trial gate lemmas
-- ============================================================================

lemma checkRateLimit_resetsAt (read : KVRead) (est : ℚ) (now : ℕ) :
    (checkRateLimit read est now).resetsAt = getResetTime now := by
  cases read <;> rfl

lemma getResetTime_mod (now : ℕ) : getResetTime now % dayMs = 0 := by
  unfold getResetTime
  exact Nat.mul_mod_left _ _

lemma lt_getResetTime (now : ℕ) : now < getResetTime now := by
  unfold getResetTime
  exact (Nat.div_lt_iff_lt_mul (by unfold dayMs; norm_num)).mp (Nat.lt_succ_self _)

lemma getResetTime_le {now m : ℕ} (hm : m % dayMs = 0) (hlt : now < m) :
    getResetTime now ≤ m := by
  obtain ⟨q, rfl⟩ : ∃ q, m = q * dayMs :=
    ⟨m / dayMs, (Nat.div_mul_cancel (Nat.dvd_of_mod_eq_zero hm)).symm⟩
  unfold getResetTime
  have hq : now / dayMs < q :=
    (Nat.div_lt_iff_lt_mul (by unfold dayMs; norm_num)).mpr hlt
  exact Nat.mul_le_mul_right dayMs hq

lemma checkRateLimit_allowed_iff (read : KVRead) (est : ℚ) (now : ℕ)
    (hr : read ≠ .err) (hest : IsTenth est) :
    ((checkRateLimit read est now).allowed = true ↔
      (checkRateLimit read est now).creditsUsed + est ≤ DAILY_FREE_CREDITS) := by
  cases read with
  | err => exact absurd rfl hr
  | missing =>
    unfold checkRateLimit
    dsimp only
    rw [roundToTenth_tenth (isTenth_add ⟨0, by norm_num⟩ hest)]
    simp only [decide_eq_true_eq]
  | unparsable =>
    unfold checkRateLimit
    dsimp only
    rw [roundToTenth_tenth (isTenth_add ⟨0, by norm_num⟩ hest)]
    simp only [decide_eq_true_eq]
  | val q =>
    unfold checkRateLimit
    dsimp only
    rw [roundToTenth_tenth (isTenth_add (roundToTenth_isTenth q) hest)]
    simp only [decide_eq_true_eq]

/-- C7: for a tenth-granular estimate (as every estimate in the worker is),
checkRateLimit allows the request exactly when the stored usage plus the
estimate stays within the daily limit, returns the next UTC midnight as the
reset instant (the least day-multiple strictly after now), and on a storage
read error denies with zero remaining credits. -/
theorem rate_limit_c7 (read : KVRead) (est : ℚ) (now : ℕ) (hest : IsTenth est) :
    (read ≠ .err →
        ((checkRateLimit read est now).allowed = true ↔
          (checkRateLimit read est now).creditsUsed + est ≤ DAILY_FREE_CREDITS))
    ∧ (read = .err →
        (checkRateLimit read est now).allowed = false
        ∧ (checkRateLimit read est now).creditsRemaining = 0)
    ∧ (checkRateLimit read est now).resetsAt % dayMs = 0
    ∧ now < (checkRateLimit read est now).resetsAt
    ∧ (∀ m : ℕ, m % dayMs = 0 → now < m →
        (checkRateLimit read est now).resetsAt ≤ m) := by
  refine ⟨fun hr => checkRateLimit_allowed_iff read est now hr hest, ?_, ?_, ?_, ?_⟩
  · rintro rfl
    exact ⟨rfl, rfl⟩
  · rw [checkRateLimit_resetsAt]
    exact getResetTime_mod now
  · rw [checkRateLimit_resetsAt]
    exact lt_getResetTime now
  · intro m hm hlt
    rw [checkRateLimit_resetsAt]
    exact getResetTime_le hm hlt

/-- Witness for rate_limit_c7 at a stored usage of 100 credits, an estimate
of 6.3 credits and now = 5 ms after the epoch. -/
theorem rate_limit_c7_witness :
    ((checkRateLimit (.val 100) (63/10) 5).allowed = true ↔
      (checkRateLimit (.val 100) (63/10) 5).creditsUsed + 63/10 ≤ DAILY_FREE_CREDITS)
    ∧ 5 < (checkRateLimit (.val 100) (63/10) 5).resetsAt :=
  have h := rate_limit_c7 (.val 100) (63/10) 5 ⟨63, by norm_num⟩
  ⟨h.1 (by simp), h.2.2.2.1⟩

lemma getDeviceBalance_exhausted (read : DeviceRead)
    (h : (getDeviceBalance read).isExhausted = true) :
    (getDeviceBalance read).creditsRemaining ≤ 0 := by
  cases read with
  | err => exact le_refl 0
  | missing => simp [getDeviceBalance] at h
  | record b =>
    unfold getDeviceBalance at h ⊢
    exact of_decide_eq_true h

/-- C4: a trial request is allowed exactly when the device balance covers
the estimate and the IP daily quota allows it; an uncovered device balance
denies with the 402 trial-exhausted response, a covered device balance with
a disallowing quota denies with the distinct 429 rate-limit response, and
for a healthy quota read the quota allows exactly when stored usage plus
estimate stays within the daily limit. -/
theorem trial_dual_gate_c4 (deviceRead : DeviceRead) (rateRead : KVRead)
    (now : ℕ) (est : ℚ) (hest : IsTenth est) (hpos : 1/10 ≤ est) :
    (validateTrialCredits deviceRead rateRead now est = .ok ↔
      (est ≤ (getDeviceBalance deviceRead).creditsRemaining
        ∧ (checkRateLimit rateRead est now).allowed = true))
    ∧ ((getDeviceBalance deviceRead).creditsRemaining < est →
        validateTrialCredits deviceRead rateRead now est =
          .fail (deviceCreditsExhaustedResponse
            (getDeviceBalance deviceRead).creditsRemaining
            (getDeviceBalance deviceRead).totalAllocated))
    ∧ (est ≤ (getDeviceBalance deviceRead).creditsRemaining →
        (checkRateLimit rateRead est now).allowed = false →
        validateTrialCredits deviceRead rateRead now est =
          .fail (ipRateLimitResponse (checkRateLimit rateRead est now).resetsAt))
    ∧ (∀ b t r, deviceCreditsExhaustedResponse b t ≠ ipRateLimitResponse r)
    ∧ (rateRead ≠ .err →
        ((checkRateLimit rateRead est now).allowed = true ↔
          (checkRateLimit rateRead est now).creditsUsed + est ≤ DAILY_FREE_CREDITS)) := by
  have hnotex : est ≤ (getDeviceBalance deviceRead).creditsRemaining →
      ¬((getDeviceBalance deviceRead).isExhausted = true
        ∨ (getDeviceBalance deviceRead).creditsRemaining < est) := by
    intro hle
    rintro (hex | hlt)
    · have h0 := getDeviceBalance_exhausted deviceRead hex
      have : (0:ℚ) < (getDeviceBalance deviceRead).creditsRemaining :=
        lt_of_lt_of_le (lt_of_lt_of_le (by norm_num) hpos) hle
      linarith
    · exact absurd hle (not_le.mpr hlt)
  refine ⟨⟨?_, ?_⟩, ?_, ?_, ?_, ?_⟩
  · intro hok
    unfold validateTrialCredits at hok
    by_cases hcond : (getDeviceBalance deviceRead).isExhausted = true
        ∨ (getDeviceBalance deviceRead).creditsRemaining < est
    · rw [if_pos hcond] at hok
      exact absurd hok (by simp)
    · rw [if_neg hcond] at hok
      by_cases hal : (checkRateLimit rateRead est now).allowed = true
      · exact ⟨le_of_not_lt (fun hlt => hcond (Or.inr hlt)), hal⟩
      · rw [if_neg (by simpa using hal)] at hok
        exact absurd hok (by simp)
  · rintro ⟨hle, hal⟩
    unfold validateTrialCredits
    dsimp only
    rw [if_neg (hnotex hle), if_pos (by simpa using hal)]
  · intro hlt
    unfold validateTrialCredits
    dsimp only
    rw [if_pos (Or.inr hlt)]
  · intro hle hal
    unfold validateTrialCredits
    dsimp only
    rw [if_neg (hnotex hle), if_neg (by simp [hal])]
  · intro b t r h
    simp [deviceCreditsExhaustedResponse, ipRateLimitResponse] at h
  · exact fun hr => checkRateLimit_allowed_iff rateRead est now hr hest

/-- Witness for trial_dual_gate_c4 at a fresh device and a fresh IP quota
with a 6.3 credit estimate. -/
theorem trial_dual_gate_c4_witness :
    validateTrialCredits .missing .missing 0 (63/10) = .ok :=
  ((trial_dual_gate_c4 .missing .missing 0 (63/10) ⟨63, by norm_num⟩ (by norm_num)).1).mpr
    ⟨by
      have h := device_missing_ok
      unfold hasDeviceSufficientCredits at h
      exact of_decide_eq_true h,
     rate_missing_ok⟩

-- ============================================================================
-- Device credits: C6
-- ============================================================================

lemma jsMax_nonneg (x : ℚ) : 0 ≤ jsMax 0 x := by
  unfold jsMax
  split
  · assumption
  · exact le_rfl

/-- C6 counterexample: deducting 200 credits from a fresh 150-credit device
clamps remaining at 0 but drives used to 200, so the stored record no longer
satisfies remaining = totalAllocated - used. -/
theorem device_floor_c6_counterexample :
    (getDeviceBalance DeviceRead.missing).creditsRemaining =
      (getDeviceBalance DeviceRead.missing).totalAllocated -
        (getDeviceBalance DeviceRead.missing).creditsUsed
    ∧ (deductDeviceCredits (getDeviceBalance DeviceRead.missing) 200).creditsRemaining = 0
    ∧ (deductDeviceCredits (getDeviceBalance DeviceRead.missing) 200).creditsUsed = 200
    ∧ (deductDeviceCredits (getDeviceBalance DeviceRead.missing) 200).creditsRemaining ≠
        (deductDeviceCredits (getDeviceBalance DeviceRead.missing) 200).totalAllocated -
          (deductDeviceCredits (getDeviceBalance DeviceRead.missing) 200).creditsUsed := by
  have hrem : (getDeviceBalance DeviceRead.missing).creditsRemaining = 150 := by
    unfold getDeviceBalance INITIAL_DEVICE_CREDITS TRIAL_CREDIT_ALLOCATION
    exact roundToTenth_tenth ⟨1500, by norm_num⟩
  have husd : (getDeviceBalance DeviceRead.missing).creditsUsed = 0 := rfl
  have htot : (getDeviceBalance DeviceRead.missing).totalAllocated = 150 := rfl
  have hd1 : (deductDeviceCredits (getDeviceBalance DeviceRead.missing) 200).creditsRemaining = 0 := by
    unfold deductDeviceCredits
    rw [hrem]
    rw [show jsMax 0 ((150:ℚ) - 200) = 0 from by unfold jsMax; norm_num]
    exact roundToTenth_tenth ⟨0, by norm_num⟩
  have hd2 : (deductDeviceCredits (getDeviceBalance DeviceRead.missing) 200).creditsUsed = 200 := by
    unfold deductDeviceCredits
    rw [husd, zero_add]
    exact roundToTenth_tenth ⟨2000, by norm_num⟩
  have hd3 : (deductDeviceCredits (getDeviceBalance DeviceRead.missing) 200).totalAllocated = 150 :=
    htot
  refine ⟨by rw [hrem, husd, htot]; norm_num, hd1, hd2, ?_⟩
  rw [hd1, hd2, hd3]
  norm_num

/-- C6 amended: the stored remaining balance is clamped at zero for every
deduction, however large; the accounting identity
remaining = totalAllocated - used is preserved exactly when the deduction is
within the remaining balance (for tenth-granular amounts), and the initial
record satisfies the identity. -/
theorem device_floor_c6 (b : DeviceCreditsBalance) (d : ℚ)
    (hr : IsTenth b.creditsRemaining) (hu : IsTenth b.creditsUsed) (hd : IsTenth d)
    (hinv : b.creditsRemaining = b.totalAllocated - b.creditsUsed)
    (hle : d ≤ b.creditsRemaining) :
    (∀ (b2 : DeviceCreditsBalance) (d2 : ℚ),
        0 ≤ (deductDeviceCredits b2 d2).creditsRemaining)
    ∧ (deductDeviceCredits b d).creditsRemaining =
        (deductDeviceCredits b d).totalAllocated - (deductDeviceCredits b d).creditsUsed
    ∧ initialDeviceRecord.creditsRemaining =
        initialDeviceRecord.totalAllocated - initialDeviceRecord.creditsUsed := by
  refine ⟨?_, ?_, ?_⟩
  · intro b2 d2
    unfold deductDeviceCredits
    exact roundToTenth_nonneg (jsMax_nonneg _)
  · unfold deductDeviceCredits
    rw [show jsMax 0 (b.creditsRemaining - d) = b.creditsRemaining - d from by
      unfold jsMax
      rw [if_pos (by linarith)]]
    rw [roundToTenth_tenth (isTenth_sub hr hd), roundToTenth_tenth (isTenth_add hu hd)]
    dsimp only
    linarith
  · unfold initialDeviceRecord INITIAL_DEVICE_CREDITS TRIAL_CREDIT_ALLOCATION
    norm_num

/-- Witness for device_floor_c6: a 9.5 credit deduction from a fresh
150-credit balance keeps the accounting identity. -/
theorem device_floor_c6_witness :
    (deductDeviceCredits ⟨150, 150, 0, 23, false⟩ (19/2)).creditsRemaining =
      (deductDeviceCredits ⟨150, 150, 0, 23, false⟩ (19/2)).totalAllocated -
        (deductDeviceCredits ⟨150, 150, 0, 23, false⟩ (19/2)).creditsUsed :=
  (device_floor_c6 ⟨150, 150, 0, 23, false⟩ (19/2) ⟨1500, by norm_num⟩ ⟨0, by norm_num⟩
    ⟨95, by norm_num⟩ (by norm_num) (by norm_num)).2.1

-- ============================================================================
-- Licensed deduction: C5
-- ============================================================================

/-- C5 evidence: the licensed deduction path POSTs the actual credits to the
external billing system but performs no license-cache write at all, so a
cache hit within the TTL still observes the pre-deduction balance; shown in
general and at a concrete deduction of 9.5 credits. -/
theorem licensed_deduct_no_cache_refresh_c5 :
    (∀ (key ip : String) (amount : ℚ) (dev : DeviceCreditsBalance),
        deductCredits (.licensed key) ip amount dev = [.postUsage key amount])
    ∧ (∀ (key : String) (amount : ℚ) (k : String) (c : ℚ) (v : Bool),
        DeductEffect.cacheWrite k c v ∉ recordUsage key amount)
    ∧ deductCredits (.licensed "HW-TEST-KEY") "203.0.113.7" (19/2)
        ⟨150, 150, 0, 23, false⟩ = [.postUsage "HW-TEST-KEY" (19/2)] := by
  refine ⟨fun key ip amount dev => rfl, ?_, rfl⟩
  intro key amount k c v
  simp [recordUsage]

-- ============================================================================
-- IP guard: C10
-- ============================================================================

/-- C10: both IP-blocklist checks fail open: a thrown KV read lets the
request proceed (and reports not blocked), and a request is treated as
blocked exactly when the store returned the exact string true. -/
theorem ip_guard_fail_open_c10 :
    (∀ e : Unit, checkIPBlocked (.error e) = .ok ∧ isIPBlocked (.error e) = false)
    ∧ (∀ read, checkIPBlocked read = .fail ipBlockedResponse ↔ read = .ok (some "true"))
    ∧ (∀ read, isIPBlocked read = true ↔ read = .ok (some "true")) := by
  refine ⟨fun e => ⟨rfl, rfl⟩, ?_, ?_⟩
  · intro read
    constructor
    · intro h
      cases read with
      | error e => simp [checkIPBlocked] at h
      | ok v =>
        by_cases hv : v = some "true"
        · rw [hv]
        · unfold checkIPBlocked at h
          dsimp only at h
          rw [if_neg hv] at h
          exact absurd h (by simp)
    · rintro rfl
      unfold checkIPBlocked
      dsimp only
      rw [if_pos rfl]
  · intro read
    constructor
    · intro h
      cases read with
      | error e => simp [isIPBlocked] at h
      | ok v =>
        unfold isIPBlocked at h
        rw [of_decide_eq_true h]
    · rintro rfl
      unfold isIPBlocked
      simp

-- ============================================================================
-- Retry with backoff: C9
-- ============================================================================

lemma retryGo_attempts_pos {E T : Type} (results : ℕ → Except E T) (d m : ℚ)
    (attempt fuel : ℕ) : 1 ≤ (retryGo results d m attempt fuel).attemptsMade := by
  cases fuel with
  | zero =>
    cases hres : results attempt <;> simp [retryGo, hres]
  | succ f =>
    cases hres : results attempt <;> simp [retryGo, hres]

lemma retryGo_attempts_le {E T : Type} (results : ℕ → Except E T) (d m : ℚ) :
    ∀ (fuel attempt : ℕ), (retryGo results d m attempt fuel).attemptsMade ≤ fuel + 1 := by
  intro fuel
  induction fuel with
  | zero =>
    intro attempt
    cases hres : results attempt <;> simp [retryGo, hres]
  | succ f ih =>
    intro attempt
    cases hres : results attempt with
    | ok t => simp [retryGo, hres]
    | error e =>
      simp only [retryGo, hres]
      have := ih (attempt + 1)
      omega

lemma retryGo_delays_eq {E T : Type} (results : ℕ → Except E T) (d m : ℚ) :
    ∀ (fuel attempt : ℕ),
      (retryGo results d m attempt fuel).delays =
        (List.range ((retryGo results d m attempt fuel).attemptsMade - 1)).map
          (fun k => d * m ^ (attempt + k)) := by
  intro fuel
  induction fuel with
  | zero =>
    intro attempt
    cases hres : results attempt <;> simp [retryGo, hres]
  | succ f ih =>
    intro attempt
    cases hres : results attempt with
    | ok t => simp [retryGo, hres]
    | error e =>
      simp only [retryGo, hres]
      have hpos := retryGo_attempts_pos results d m (attempt + 1) f
      have ha : (retryGo results d m (attempt + 1) f).attemptsMade + 1 - 1 =
          ((retryGo results d m (attempt + 1) f).attemptsMade - 1) + 1 := by omega
      rw [ha, List.range_succ_eq_map, List.map_cons, List.map_map]
      congr 1
      rw [ih (attempt + 1)]
      apply List.map_congr_left
      intro k _
      simp only [Function.comp_apply, Nat.succ_eq_add_one]
      rw [show attempt + 1 + k = attempt + (k + 1) from by omega]

lemma retryGo_first_success {E T : Type} (results : ℕ → Except E T) (d m : ℚ) :
    ∀ (k fuel attempt : ℕ) (t : T), k ≤ fuel → results (attempt + k) = .ok t →
      (∀ j, j < k → ∃ e, results (attempt + j) = .error e) →
      (retryGo results d m attempt fuel).outcome = .ok t
      ∧ (retryGo results d m attempt fuel).attemptsMade = k + 1 := by
  intro k
  induction k with
  | zero =>
    intro fuel attempt t _ hok _
    rw [Nat.add_zero] at hok
    cases fuel with
    | zero => simp [retryGo, hok]
    | succ f => simp [retryGo, hok]
  | succ k ih =>
    intro fuel attempt t hk hok hprev
    obtain ⟨e0, he0⟩ := hprev 0 (Nat.succ_pos k)
    rw [Nat.add_zero] at he0
    cases fuel with
    | zero => omega
    | succ f =>
      simp only [retryGo, he0]
      have hrest := ih f (attempt + 1) t (by omega)
        (by rw [show attempt + 1 + k = attempt + (k + 1) from by omega]; exact hok)
        (fun j hj => by
          obtain ⟨e2, he2⟩ := hprev (j + 1) (by omega)
          exact ⟨e2, by rw [show attempt + 1 + j = attempt + (j + 1) from by omega]; exact he2⟩)
      exact ⟨hrest.1, by rw [hrest.2]⟩

lemma retryGo_all_error {E T : Type} (results : ℕ → Except E T) (d m : ℚ) :
    ∀ (fuel attempt : ℕ) (e : E),
      (∀ j, j ≤ fuel → ∃ e2, results (attempt + j) = .error e2) →
      results (attempt + fuel) = .error e →
      (retryGo results d m attempt fuel).outcome = .error e
      ∧ (retryGo results d m attempt fuel).attemptsMade = fuel + 1 := by
  intro fuel
  induction fuel with
  | zero =>
    intro attempt e _ hlast
    rw [Nat.add_zero] at hlast
    simp [retryGo, hlast]
  | succ f ih =>
    intro attempt e hall hlast
    obtain ⟨e0, he0⟩ := hall 0 (by omega)
    rw [Nat.add_zero] at he0
    simp only [retryGo, he0]
    have hrest := ih (attempt + 1) e
      (fun j hj => by
        obtain ⟨e3, he3⟩ := hall (j + 1) (by omega)
        exact ⟨e3, by rw [show attempt + 1 + j = attempt + (j + 1) from by omega]; exact he3⟩)
      (by rw [show attempt + 1 + f = attempt + (f + 1) from by omega]; exact hlast)
    exact ⟨hrest.1, by rw [hrest.2]⟩

/-- C9: retryWithBackoff invokes the wrapped operation at most
maxRetries + 1 times, waits d times m to the k before the k-plus-first
retry, returns the first successful result with no further attempts, and
throws the error of the last attempt once all are exhausted; with the
configured Deepgram call-site options (3 retries, 1000 ms, multiplier 2)
the waits on full exhaustion are 1000, 2000 and 4000 ms. -/
theorem retry_backoff_c9 {E T : Type} (results : ℕ → Except E T)
    (maxRetries : ℕ) (d m : ℚ) :
    (retryWithBackoff results maxRetries d m).attemptsMade ≤ maxRetries + 1
    ∧ (retryWithBackoff results maxRetries d m).delays =
        (List.range ((retryWithBackoff results maxRetries d m).attemptsMade - 1)).map
          (fun k => d * m ^ k)
    ∧ (∀ (k : ℕ) (t : T), k ≤ maxRetries → results k = .ok t →
        (∀ j, j < k → ∃ e, results j = .error e) →
        (retryWithBackoff results maxRetries d m).outcome = .ok t
        ∧ (retryWithBackoff results maxRetries d m).attemptsMade = k + 1)
    ∧ (∀ e : E, (∀ j, j ≤ maxRetries → ∃ e2, results j = .error e2) →
        results maxRetries = .error e →
        (retryWithBackoff results maxRetries d m).outcome = .error e
        ∧ (retryWithBackoff results maxRetries d m).attemptsMade = maxRetries + 1)
    ∧ ((∀ j, j ≤ deepgramRetryMaxRetries → ∃ e2, results j = .error e2) →
        (retryWithBackoff results deepgramRetryMaxRetries deepgramRetryInitialDelayMs
          deepgramRetryBackoffMultiplier).delays = [1000, 2000, 4000]) := by
  refine ⟨retryGo_attempts_le results d m maxRetries 0, ?_, ?_, ?_, ?_⟩
  · have h := retryGo_delays_eq results d m maxRetries 0
    simpa using h
  · intro k t hk hok hprev
    exact retryGo_first_success results d m k maxRetries 0 t hk
      (by simpa using hok) (fun j hj => by simpa using hprev j hj)
  · intro e hall hlast
    exact retryGo_all_error results d m maxRetries 0 e
      (fun j hj => by simpa using hall j hj) (by simpa using hlast)
  · intro hall
    obtain ⟨e, he⟩ := hall deepgramRetryMaxRetries le_rfl
    have hrun := retryGo_all_error results deepgramRetryInitialDelayMs
      deepgramRetryBackoffMultiplier deepgramRetryMaxRetries 0 e
      (fun j hj => by simpa using hall j hj) (by simpa using he)
    have hdel := retryGo_delays_eq results deepgramRetryInitialDelayMs
      deepgramRetryBackoffMultiplier deepgramRetryMaxRetries 0
    unfold retryWithBackoff
    rw [hdel, hrun.2]
    unfold deepgramRetryMaxRetries deepgramRetryInitialDelayMs deepgramRetryBackoffMultiplier
    norm_num [List.range_succ]

/-- Witness for retry_backoff_c9: an operation failing twice then succeeding
is retried to success on the third attempt. -/
theorem retry_backoff_c9_witness :
    (retryWithBackoff retryResultsSample 3 1000 2).outcome = .ok 42
    ∧ (retryWithBackoff retryResultsSample 3 1000 2).attemptsMade = 3 :=
  (retry_backoff_c9 retryResultsSample 3 1000 2).2.2.1 2 42 (by norm_num)
    (by simp [retryResultsSample])
    (fun j hj => ⟨(), by simp [retryResultsSample, hj]⟩)
